import Mathlib

/-!
Verification of the GPIO example programs of this repository (`gpio2.c` and
the resource-tracked variant with an `atexit` cleanup hook, plus a shared
LED-toggling loop).  Each thread body is shallowly embedded as a pure
function from a *driver oracle* — recording which libgpiod calls succeed —
to the list of driver calls it performs (its trace) together with its
outcome (normal return, `error()` with `exit(1)`, or a NULL-handle
dereference).  Machine integers of the C code are modelled as `Nat`; all
values involved (line ids, cycle counts, durations in nanoseconds, logic
levels 0/1) are small and non-negative in the source.
-/

/-- Driver calls observable in a thread's trace.  A handle is `Option Nat`:
`some id` is a valid `struct gpiod_line *` for line `id`, `none` is `NULL`. -/
inductive Ev where
  | getLine (id : Nat) (ok : Bool)
  | requestOutput (h : Option Nat) (consumer : String) (init : Nat) (ok : Bool)
  | requestInput (h : Option Nat) (consumer : String) (ok : Bool)
  | requestEvents (h : Option Nat) (consumer : String) (ok : Bool)
  | setValue (h : Option Nat) (v : Nat) (ok : Bool)
  | eventWait (h : Option Nat) (ok : Bool)
  | eventRead (h : Option Nat) (ok : Bool)
  | release (id : Nat)
  | chipClose
  deriving DecidableEq, Repr

/-- Outcome of a thread body or of the whole process. -/
inductive Outcome where
  | ok
  | exit1 (msg : String)
  | nullDeref
  deriving DecidableEq, Repr

/-- Embedding of `void error(char *message)`: the diagnostic line that
`fprintf(stderr, "ERROR: %s\n", message)` writes before `exit(1)`. -/
def errorLine (message : String) : String := "ERROR: " ++ message ++ "\n"

/-- Successful `gpiod_chip_get_line` for line `target`. -/
def isAcquire (target : Nat) : Ev → Bool
  | .getLine j ok => j == target && ok
  | _ => false

/-- A `gpiod_line_release` of line `target`. -/
def isRelease (target : Nat) : Ev → Bool
  | .release j => j == target
  | _ => false

def isChipClose : Ev → Bool
  | .chipClose => true
  | _ => false

/-- Successful `gpiod_line_event_read`. -/
def isEventRead : Ev → Bool
  | .eventRead _ ok => ok
  | _ => false

/-- The value argument of a `gpiod_line_set_value` call, if the event is one. -/
def valueOf : Ev → Option Nat
  | .setValue _ v _ => some v
  | _ => none

def acquireCount (target : Nat) (tr : List Ev) : Nat := tr.countP (isAcquire target)

def releaseCount (target : Nat) (tr : List Ev) : Nat := tr.countP (isRelease target)

def chipCloseCount (tr : List Ev) : Nat := tr.countP isChipClose

def eventReadCount (tr : List Ev) : Nat := tr.countP isEventRead

/-- The sequence of levels passed to `gpiod_line_set_value`, in order. -/
def writtenValues (tr : List Ev) : List Nat := tr.filterMap valueOf

/-- The line id of a `gpiod_chip_get_line` call, if the event is one. -/
def getLineId : Ev → Option Nat
  | .getLine j _ => some j
  | _ => none

/-- Result of one `nanosleep` call in the issuer's retry loop:
completed, interrupted by a signal after `elapsed` nanoseconds (`EINTR`,
the remaining time is written to `rem`), or one of the fatal `errno`s. -/
inductive SleepRes where
  | done
  | intr (elapsed : Nat)
  | efault
  | einval
  | other
  deriving DecidableEq, Repr

/-- Fatal `errno` classes of `nanosleep` as handled by the `switch`. -/
inductive SleepErr where
  | efault
  | einval
  | other
  deriving DecidableEq, Repr

/-- Embedding of the `do { nanosleep(d, r); } while (!done)` retry loop shared
by all issuer variants: `dur` is the currently requested duration in
nanoseconds, `resps` scripts the successive `nanosleep` results.  On `EINTR`
the loop retries with the remaining duration `dur - elapsed` (the platform
writes it into `*r`, which becomes the next `d`); an exhausted or `done`
script means the call slept the whole requested duration.  Returns the total
time slept, or the fatal `errno` class. -/
def runSleep : Nat → List SleepRes → Except SleepErr Nat
  | dur, [] => .ok dur
  | dur, .done :: _ => .ok dur
  | dur, .intr t :: rest =>
      match runSleep (dur - t) rest with
      | .ok s => .ok (t + s)
      | .error e => .error e
  | _, .efault :: _ => .error .efault
  | _, .einval :: _ => .error .einval
  | _, .other :: _ => .error .other

/-- True when the scripted `nanosleep` results let the retry loop complete. -/
def sleepOk (dur : Nat) (resps : List SleepRes) : Bool :=
  match runSleep dur resps with
  | .ok _ => true
  | .error _ => false

/-- Well-formed interruption script: each interruption happens strictly
before the currently requested duration has elapsed. -/
def validIntr : Nat → List Nat → Bool
  | _, [] => true
  | dur, t :: ts => decide (t < dur) && validIntr (dur - t) ts

/-- The fatal diagnostic the issuer emits for each fatal `nanosleep` errno. -/
def issuerSleepMsg : SleepErr → String
  | .efault => "issuer: problem with copying information from user space"
  | .einval => "issuer: unexpected period duration"
  | .other => "issuer: unexpected errno value"

/-- Oracle for one issuer thread: success of `gpiod_chip_get_line`, of
`gpiod_line_request_output`, of each cycle's `gpiod_line_set_value`, and the
scripted `nanosleep` results of each cycle. -/
structure IssuerOracle where
  getLineOk : Bool
  requestOutputOk : Bool
  setValueOk : Nat → Bool
  sleepResp : Nat → List SleepRes

/-- Oracle for `gpio2.c`'s issuer, which additionally performs a final
`set_value(0)`, re-gets the line and re-requests it as input. -/
structure Issuer2Oracle extends IssuerOracle where
  finalSetOk : Bool
  getLineOk2 : Bool
  requestInputOk : Bool

/-- Embedding of the issuer's `for (cycle...)` loop, common to both
variants.  `releaseOnFatal` is `true` for the resource-tracked variant
(`issuer_thread_terminate` releases the held line before `error()`) and
`false` for `gpio2.c` (whose mid-loop error paths call `error()` directly).
Arguments: oracle, held line id, duration, current cycle, remaining cycles.
Returns the loop's trace and `some msg` when `error(msg)` was reached. -/
def issuer_loop (releaseOnFatal : Bool) (o : IssuerOracle) (lineId dur : Nat) :
    Nat → Nat → List Ev × Option String
  | _, 0 => ([], none)
  | c, Nat.succ n =>
    let v := c &&& 1
    if o.setValueOk c = false then
      (Ev.setValue (some lineId) v false ::
         (if releaseOnFatal then [Ev.release lineId] else []),
       some "issuer: cannot change the value of the output")
    else
      match runSleep dur (o.sleepResp c) with
      | .error e =>
          (Ev.setValue (some lineId) v true ::
             (if releaseOnFatal then [Ev.release lineId] else []),
           some (issuerSleepMsg e))
      | .ok _ =>
          (Ev.setValue (some lineId) v true ::
             (issuer_loop releaseOnFatal o lineId dur (c + 1) n).1,
           (issuer_loop releaseOnFatal o lineId dur (c + 1) n).2)

namespace Gpio3

/-- Embedding of `issuer_thread` of the resource-tracked variant: gets the
line, requests it as output at level 0, runs the toggle loop, and on every
exit path `issuer_thread_terminate` releases the held line; fatal paths end
in `error(msg)`. -/
def issuer_thread (o : IssuerOracle) (count dur lineId : Nat) : List Ev × Outcome :=
  if o.getLineOk = false then
    ([Ev.getLine lineId false], .exit1 "issuer: cannot get the line")
  else if o.requestOutputOk = false then
    ([Ev.getLine lineId true, Ev.requestOutput (some lineId) "issuer" 0 false,
      Ev.release lineId],
     .exit1 "issuer: cannot set the line's mode to output")
  else
    match (issuer_loop true o lineId dur 0 count).2 with
    | some m =>
        (Ev.getLine lineId true :: Ev.requestOutput (some lineId) "issuer" 0 true ::
           (issuer_loop true o lineId dur 0 count).1,
         .exit1 m)
    | none =>
        (Ev.getLine lineId true :: Ev.requestOutput (some lineId) "issuer" 0 true ::
           ((issuer_loop true o lineId dur 0 count).1 ++ [Ev.release lineId]),
         .ok)

end Gpio3

namespace Gpio2

/-- Embedding of `issuer_thread` of `gpio2.c`: same acquisition and loop,
but mid-loop fatal paths call `error()` without releasing the line, and the
normal path forces the level to 0, releases, then re-gets the line, requests
it as input and releases again. -/
def issuer_thread (o : Issuer2Oracle) (name : String) (count dur lineId : Nat) :
    List Ev × Outcome :=
  if o.getLineOk = false then
    ([Ev.getLine lineId false], .exit1 "issuer: cannot get the line")
  else if o.requestOutputOk = false then
    ([Ev.getLine lineId true, Ev.requestOutput (some lineId) name 0 false,
      Ev.release lineId],
     .exit1 "issuer: cannot set the line's mode to output")
  else
    match (issuer_loop false o.toIssuerOracle lineId dur 0 count).2 with
    | some m =>
        (Ev.getLine lineId true :: Ev.requestOutput (some lineId) name 0 true ::
           (issuer_loop false o.toIssuerOracle lineId dur 0 count).1,
         .exit1 m)
    | none =>
        if o.finalSetOk = false then
          (Ev.getLine lineId true :: Ev.requestOutput (some lineId) name 0 true ::
             ((issuer_loop false o.toIssuerOracle lineId dur 0 count).1 ++
               [Ev.setValue (some lineId) 0 false]),
           .exit1 "issuer: cannot change the value of the output")
        else if o.getLineOk2 = false then
          (Ev.getLine lineId true :: Ev.requestOutput (some lineId) name 0 true ::
             ((issuer_loop false o.toIssuerOracle lineId dur 0 count).1 ++
               [Ev.setValue (some lineId) 0 true, Ev.release lineId,
                Ev.getLine lineId false]),
           .exit1 "issuer: cannot get the line")
        else if o.requestInputOk = false then
          (Ev.getLine lineId true :: Ev.requestOutput (some lineId) name 0 true ::
             ((issuer_loop false o.toIssuerOracle lineId dur 0 count).1 ++
               [Ev.setValue (some lineId) 0 true, Ev.release lineId,
                Ev.getLine lineId true, Ev.requestInput (some lineId) name false,
                Ev.release lineId]),
           .exit1 "issuer: cannot set the line's mode to input")
        else
          (Ev.getLine lineId true :: Ev.requestOutput (some lineId) name 0 true ::
             ((issuer_loop false o.toIssuerOracle lineId dur 0 count).1 ++
               [Ev.setValue (some lineId) 0 true, Ev.release lineId,
                Ev.getLine lineId true, Ev.requestInput (some lineId) name true,
                Ev.release lineId]),
           .ok)

end Gpio2

/-- Oracle for a receiver thread: success of the two `gpiod_chip_get_line`
calls, of `gpiod_line_request_output` on the controller, of
`gpiod_line_request_both_edges_events` on the receiver, and of each cycle's
event wait, event read and set-value calls. -/
structure ReceiverOracle where
  getReceiverOk : Bool
  getControllerOk : Bool
  requestOutputOk : Bool
  requestEventsOk : Bool
  eventWaitOk : Nat → Bool
  eventReadOk : Nat → Bool
  setValueOk : Nat → Bool

/-- Oracle for `gpio2.c`'s receiver, which additionally performs a final
`set_value(0)`, re-gets the controller line and re-requests it as input. -/
structure Receiver2Oracle extends ReceiverOracle where
  finalSetOk : Bool
  getControllerOk2 : Bool
  requestInputOk : Bool

/-- Embedding of the receiver's `for (cycle...)` loop, identical in both
variants (both release receiver then controller before `error()` on every
fatal path; `gpio2.c` releases them inline, the other variant via
`receiver_thread_terminate`).  `state` is the C variable `state` (the
process-local output level); each cycle waits for an event, reads it, flips
`state` and applies it to the controller line.  Note the source initialises
`state` nowhere: the initial value is the indeterminate content of the
stack slot, so it is a parameter here.  The misspelt diagnostic
"contoller: ..." is the source's own string. -/
def receiver_loop (o : ReceiverOracle) (rid cid : Nat) :
    Bool → Nat → Nat → List Ev × Option String
  | _, _, 0 => ([], none)
  | state, c, Nat.succ n =>
    if o.eventWaitOk c = false then
      ([Ev.eventWait (some rid) false, Ev.release rid, Ev.release cid],
       some "receiver: error while waiting for an event")
    else if o.eventReadOk c = false then
      ([Ev.eventWait (some rid) true, Ev.eventRead (some rid) false,
        Ev.release rid, Ev.release cid],
       some "receiver: error while reading the event")
    else
      let v := if !state then 1 else 0
      if o.setValueOk c = false then
        ([Ev.eventWait (some rid) true, Ev.eventRead (some rid) true,
          Ev.setValue (some cid) v false, Ev.release rid, Ev.release cid],
         some "contoller: cannot change the value of the output")
      else
        (Ev.eventWait (some rid) true :: Ev.eventRead (some rid) true ::
           Ev.setValue (some cid) v true ::
           (receiver_loop o rid cid (!state) (c + 1) n).1,
         (receiver_loop o rid cid (!state) (c + 1) n).2)

namespace Gpio3

/-- Embedding of `receiver_thread` of the resource-tracked variant.  After
getting the controller line the source tests `NULL == resource.receiver`
(not `resource.controller`), so a failed controller get is never detected
and the thread calls `gpiod_line_request_output` on a `NULL` handle, which
dereferences it (modelled as `Outcome.nullDeref`; the process then dies on
the signal, so no release and no cleanup hook runs on that path).  `s0` is
the indeterminate initial value of the uninitialised variable `state`. -/
def receiver_thread (o : ReceiverOracle) (count rid cid : Nat) (s0 : Bool) :
    List Ev × Outcome :=
  if o.getReceiverOk = false then
    ([Ev.getLine rid false],
     .exit1 "receiver: cannot get the line used to receive messages from the issuer")
  else
    -- the dead null check: `if (NULL == resource.receiver)` with
    -- `resource.receiver = some rid` here, hence never taken
    if (some rid : Option Nat).isNone then
      ([Ev.getLine rid true, Ev.getLine cid o.getControllerOk, Ev.release rid],
       .exit1 "receiver: cannot get the line used to control the LED")
    else if o.getControllerOk = false then
      ([Ev.getLine rid true, Ev.getLine cid false,
        Ev.requestOutput none "controller" 0 false],
       .nullDeref)
    else if o.requestOutputOk = false then
      ([Ev.getLine rid true, Ev.getLine cid true,
        Ev.requestOutput (some cid) "controller" 0 false,
        Ev.release rid, Ev.release cid],
       .exit1 "receiver: cannot set the line's mode to input")
    else if o.requestEventsOk = false then
      ([Ev.getLine rid true, Ev.getLine cid true,
        Ev.requestOutput (some cid) "controller" 0 true,
        Ev.requestEvents (some rid) "receiver" false,
        Ev.release rid, Ev.release cid],
       .exit1 "receiver: cannot set the line's callbacks")
    else
      match (receiver_loop o rid cid s0 0 count).2 with
      | some m =>
          (Ev.getLine rid true :: Ev.getLine cid true ::
             Ev.requestOutput (some cid) "controller" 0 true ::
             Ev.requestEvents (some rid) "receiver" true ::
             (receiver_loop o rid cid s0 0 count).1,
           .exit1 m)
      | none =>
          (Ev.getLine rid true :: Ev.getLine cid true ::
             Ev.requestOutput (some cid) "controller" 0 true ::
             Ev.requestEvents (some rid) "receiver" true ::
             ((receiver_loop o rid cid s0 0 count).1 ++
               [Ev.release rid, Ev.release cid]),
           .ok)

/-- Oracle for `reset_gpio`: success of `gpiod_chip_get_line` and of
`gpiod_line_request_input` per line id. -/
structure ResetOracle where
  getLineOk : Nat → Bool
  requestInputOk : Nat → Bool

/-- One iteration of `reset_gpio`'s loop body for line `pin`: get the line,
request it as input, release it; each failure logs a warning (modelled as
the pair of the line id and the name of the failing call — the source also
prints `errno`) and `continue`s. -/
def resetLine (o : ResetOracle) (pin : Nat) : List Ev × List (Nat × String) :=
  if o.getLineOk pin = false then
    ([Ev.getLine pin false], [(pin, "gpiod_chip_get_line")])
  else if o.requestInputOk pin = false then
    ([Ev.getLine pin true, Ev.requestInput (some pin) "line" false],
     [(pin, "gpiod_line_request_input")])
  else
    ([Ev.getLine pin true, Ev.requestInput (some pin) "line" true,
      Ev.release pin], [])

/-- The fixed line-id array `int pins[3] = { GPIO_16, GPIO_17, GPIO_21 }`. -/
def resetPins : List Nat := [16, 17, 21]

/-- Embedding of the `atexit` cleanup callback `reset_gpio`: best-effort
reset of each pin in `resetPins` to input mode, then `gpiod_chip_close`.
Returns the driver trace and the warnings logged. -/
def reset_gpio (o : ResetOracle) : List Ev × List (Nat × String) :=
  ((resetPins.flatMap fun pin => (resetLine o pin).1) ++ [Ev.chipClose],
   resetPins.flatMap fun pin => (resetLine o pin).2)

end Gpio3

namespace Gpio2

/-- Embedding of `receiver_thread` of `gpio2.c`.  Identical to the other
variant up to the end of the loop (including the misdirected null check,
here on the first occurrence at lines 186-189), then: forces the controller
level to 0 (on failure `error()` without releasing), releases both lines,
re-gets the controller (the second null check again tests the stale
`receiver` pointer, so a failed get leads to `gpiod_line_request_input` on
`NULL`), requests it as input and releases it. -/
def receiver_thread (o : Receiver2Oracle) (count rid cid : Nat) (s0 : Bool) :
    List Ev × Outcome :=
  if o.getReceiverOk = false then
    ([Ev.getLine rid false],
     .exit1 "receiver: cannot get the line used to receive messages from the issuer")
  else if (some rid : Option Nat).isNone then
    ([Ev.getLine rid true, Ev.getLine cid o.getControllerOk],
     .exit1 "receiver: cannot get the line used to control the LED")
  else if o.getControllerOk = false then
    ([Ev.getLine rid true, Ev.getLine cid false,
      Ev.requestOutput none "controller" 0 false],
     .nullDeref)
  else if o.requestOutputOk = false then
    ([Ev.getLine rid true, Ev.getLine cid true,
      Ev.requestOutput (some cid) "controller" 0 false,
      Ev.release rid, Ev.release cid],
     .exit1 "receiver: cannot set the line's mode to input")
  else if o.requestEventsOk = false then
    ([Ev.getLine rid true, Ev.getLine cid true,
      Ev.requestOutput (some cid) "controller" 0 true,
      Ev.requestEvents (some rid) "receiver" false,
      Ev.release rid, Ev.release cid],
     .exit1 "receiver: cannot set the line's callbacks")
  else
    match (receiver_loop o.toReceiverOracle rid cid s0 0 count).2 with
    | some m =>
        (Ev.getLine rid true :: Ev.getLine cid true ::
           Ev.requestOutput (some cid) "controller" 0 true ::
           Ev.requestEvents (some rid) "receiver" true ::
           (receiver_loop o.toReceiverOracle rid cid s0 0 count).1,
         .exit1 m)
    | none =>
        if o.finalSetOk = false then
          (Ev.getLine rid true :: Ev.getLine cid true ::
             Ev.requestOutput (some cid) "controller" 0 true ::
             Ev.requestEvents (some rid) "receiver" true ::
             ((receiver_loop o.toReceiverOracle rid cid s0 0 count).1 ++
               [Ev.setValue (some cid) 0 false]),
           .exit1 "receiver: cannot change the value of the output for the line that controls the LED")
        else if o.getControllerOk2 = false then
          (Ev.getLine rid true :: Ev.getLine cid true ::
             Ev.requestOutput (some cid) "controller" 0 true ::
             Ev.requestEvents (some rid) "receiver" true ::
             ((receiver_loop o.toReceiverOracle rid cid s0 0 count).1 ++
               [Ev.setValue (some cid) 0 true, Ev.release rid, Ev.release cid,
                Ev.getLine cid false, Ev.requestInput none "controller" false]),
           .nullDeref)
        else if o.requestInputOk = false then
          (Ev.getLine rid true :: Ev.getLine cid true ::
             Ev.requestOutput (some cid) "controller" 0 true ::
             Ev.requestEvents (some rid) "receiver" true ::
             ((receiver_loop o.toReceiverOracle rid cid s0 0 count).1 ++
               [Ev.setValue (some cid) 0 true, Ev.release rid, Ev.release cid,
                Ev.getLine cid true, Ev.requestInput (some cid) "controller" false,
                Ev.release cid]),
           .exit1 "receiver: cannot set the line's mode to input")
        else
          (Ev.getLine rid true :: Ev.getLine cid true ::
             Ev.requestOutput (some cid) "controller" 0 true ::
             Ev.requestEvents (some rid) "receiver" true ::
             ((receiver_loop o.toReceiverOracle rid cid s0 0 count).1 ++
               [Ev.setValue (some cid) 0 true, Ev.release rid, Ev.release cid,
                Ev.getLine cid true, Ev.requestInput (some cid) "controller" true,
                Ev.release cid]),
           .ok)

/-- Process-level embedding of `gpio2.c`'s `main`: opens the chip (fatal on
failure), starts the issuer (1 s period, 20 cycles, line 16) and the
receiver (10 cycles, input line 21, output line 17), joins both, closes the
chip and returns 0.  The two threads drive disjoint lines and never
interact, so their observable effect on the process (exit status and the
`stderr` stream) is captured by running them in join order; a thread that
calls `error()` makes the whole process exit with status 1 right there.  A
`nullDeref` kills the process by signal: no exit status, nothing printed.
Returns (exit status if the process exited normally, `stderr` lines). -/
def main_run (chipOk : Bool) (io : Issuer2Oracle) (ro : Receiver2Oracle)
    (s0 : Bool) : Option Nat × List String :=
  if chipOk = false then
    (some 1, [errorLine "cannot open the chip"])
  else
    match (issuer_thread io "issuer" 20 1000000000 16).2 with
    | .exit1 m => (some 1, [errorLine m])
    | .nullDeref => (none, [])
    | .ok =>
        match (receiver_thread ro 10 21 17 s0).2 with
        | .exit1 m => (some 1, [errorLine m])
        | .nullDeref => (none, [])
        | .ok => (some 0, [])

end Gpio2

/-- Oracle on which every driver call succeeds and no sleep is interrupted. -/
def happyIssuerO : IssuerOracle :=
  { getLineOk := true, requestOutputOk := true,
    setValueOk := fun _ => true, sleepResp := fun _ => [] }

def happyIssuer2O : Issuer2Oracle :=
  { toIssuerOracle := happyIssuerO,
    finalSetOk := true, getLineOk2 := true, requestInputOk := true }

def happyReceiverO : ReceiverOracle :=
  { getReceiverOk := true, getControllerOk := true, requestOutputOk := true,
    requestEventsOk := true, eventWaitOk := fun _ => true,
    eventReadOk := fun _ => true, setValueOk := fun _ => true }

def happyReceiver2O : Receiver2Oracle :=
  { toReceiverOracle := happyReceiverO,
    finalSetOk := true, getControllerOk2 := true, requestInputOk := true }

def happyResetO : Gpio3.ResetOracle :=
  { getLineOk := fun _ => true, requestInputOk := fun _ => true }

/-- An issuer oracle whose first `gpiod_line_set_value` fails. -/
def setFailIssuer2O : Issuer2Oracle :=
  { toIssuerOracle :=
      { getLineOk := true, requestOutputOk := true,
        setValueOk := fun _ => false, sleepResp := fun _ => [] },
    finalSetOk := true, getLineOk2 := true, requestInputOk := true }

/-- A receiver oracle on which `gpiod_line_request_both_edges_events` fails. -/
def evFailReceiverO : ReceiverOracle :=
  { happyReceiverO with requestEventsOk := false }

def evFailReceiver2O : Receiver2Oracle :=
  { happyReceiver2O with toReceiverOracle := evFailReceiverO }

/-- A receiver oracle on which getting the controller line fails. -/
def ctrlFailReceiverO : ReceiverOracle :=
  { happyReceiverO with getControllerOk := false }

def ctrlFailReceiver2O : Receiver2Oracle :=
  { happyReceiver2O with toReceiverOracle := ctrlFailReceiverO }

/-- A reset oracle on which requesting line 17 as input fails. -/
def pin17FailResetO : Gpio3.ResetOracle :=
  { getLineOk := fun _ => true, requestInputOk := fun pin => pin != 17 }

theorem writtenValues_nil : writtenValues [] = [] := rfl

theorem writtenValues_append (tr₁ tr₂ : List Ev) :
    writtenValues (tr₁ ++ tr₂) = writtenValues tr₁ ++ writtenValues tr₂ :=
  List.filterMap_append tr₁ tr₂ valueOf

theorem writtenValues_setValue_map (lineId : Nat) (ok : Bool) (l : List Nat) :
    writtenValues (l.map fun i => Ev.setValue (some lineId) (i &&& 1) ok) =
      l.map fun i => i &&& 1 := by
  induction l with
  | nil => rfl
  | cons a l ih => simp [writtenValues, valueOf] at ih ⊢; exact ih

/-- On a script where every set-value and every sleep of the first `n`
cycles (counted from `c`) succeeds, the toggle loop of either variant runs
to completion and its trace is exactly one successful set-value per cycle,
written level `cycle &&& 1`. -/
theorem issuer_loop_happy (b : Bool) (o : IssuerOracle) (lineId dur : Nat) :
    ∀ n c, (∀ k, k < n → o.setValueOk (c + k) = true) →
      (∀ k, k < n → sleepOk dur (o.sleepResp (c + k)) = true) →
      issuer_loop b o lineId dur c n =
        ((List.range' c n).map fun i => Ev.setValue (some lineId) (i &&& 1) true,
         none) := by
  intro n
  induction n with
  | zero => intro c _ _; simp [issuer_loop]
  | succ k ih =>
    intro c h1 h2
    have hs : o.setValueOk c = true := by simpa using h1 0 (Nat.succ_pos k)
    have hw : sleepOk dur (o.sleepResp c) = true := by simpa using h2 0 (Nat.succ_pos k)
    have hrec := ih (c + 1)
      (fun j hj => by
        have e : c + 1 + j = c + (j + 1) := by omega
        rw [e]; exact h1 (j + 1) (by omega))
      (fun j hj => by
        have e : c + 1 + j = c + (j + 1) := by omega
        rw [e]; exact h2 (j + 1) (by omega))
    rcases hq : runSleep dur (o.sleepResp c) with e | s
    · simp [sleepOk, hq] at hw
    · simp [issuer_loop, hs, hq, hrec, List.range'_succ]

/-- Count bookkeeping for the toggle loop: it never acquires a line and
never closes the chip; it releases the held line exactly once when it hits
a fatal error in the resource-tracked variant (`releaseOnFatal = true`) and
never otherwise — in particular `gpio2.c`'s loop releases nothing even on
its fatal paths. -/
theorem issuer_loop_counts (b : Bool) (o : IssuerOracle) (lineId dur : Nat) :
    ∀ n c x,
      acquireCount x (issuer_loop b o lineId dur c n).1 = 0 ∧
      chipCloseCount (issuer_loop b o lineId dur c n).1 = 0 ∧
      releaseCount x (issuer_loop b o lineId dur c n).1 =
        (match (issuer_loop b o lineId dur c n).2 with
         | some _ => if b = true ∧ lineId = x then 1 else 0
         | none => 0) := by
  intro n
  induction n with
  | zero =>
    intro c x
    simp [issuer_loop, acquireCount, chipCloseCount, releaseCount]
  | succ k ih =>
    intro c x
    rcases hsv : o.setValueOk c with _ | _
    · cases b <;>
        simp [issuer_loop, hsv, acquireCount, chipCloseCount, releaseCount,
          List.countP_cons, isAcquire, isChipClose, isRelease, beq_iff_eq]
    · rcases hq : runSleep dur (o.sleepResp c) with e | s
      · cases b <;>
          simp [issuer_loop, hsv, hq, acquireCount, chipCloseCount, releaseCount,
            List.countP_cons, isAcquire, isChipClose, isRelease, beq_iff_eq]
      · obtain ⟨ha, hc, hr⟩ := ih (c + 1) x
        simp [issuer_loop, hsv, hq, acquireCount, chipCloseCount, releaseCount,
          List.countP_cons, isAcquire, isChipClose, isRelease] at ha hc hr ⊢
        exact ⟨ha, hc, hr⟩

/-- Count bookkeeping for the relay loop (shared by both variants): it never
acquires a line and never closes the chip; on a fatal path it releases the
receiver line and the controller line exactly once each (via
`receiver_thread_terminate`, or inline in `gpio2.c`), and nothing
otherwise. -/
theorem receiver_loop_counts (o : ReceiverOracle) (rid cid : Nat) :
    ∀ n s c x,
      acquireCount x (receiver_loop o rid cid s c n).1 = 0 ∧
      chipCloseCount (receiver_loop o rid cid s c n).1 = 0 ∧
      releaseCount x (receiver_loop o rid cid s c n).1 =
        (match (receiver_loop o rid cid s c n).2 with
         | some _ => (if rid = x then 1 else 0) + (if cid = x then 1 else 0)
         | none => 0) := by
  intro n
  induction n with
  | zero =>
    intro s c x
    simp [receiver_loop, acquireCount, chipCloseCount, releaseCount]
  | succ k ih =>
    intro s c x
    rcases hw : o.eventWaitOk c with _ | _
    · simp [receiver_loop, hw, acquireCount, chipCloseCount, releaseCount,
        List.countP_cons, isAcquire, isChipClose, isRelease, beq_iff_eq,
        Nat.add_comm]
    · rcases hr : o.eventReadOk c with _ | _
      · simp [receiver_loop, hw, hr, acquireCount, chipCloseCount, releaseCount,
          List.countP_cons, isAcquire, isChipClose, isRelease, beq_iff_eq,
          Nat.add_comm]
      · rcases hs : o.setValueOk c with _ | _
        · simp [receiver_loop, hw, hr, hs, acquireCount, chipCloseCount,
            releaseCount, List.countP_cons, isAcquire, isChipClose, isRelease,
            beq_iff_eq, Nat.add_comm]
        · obtain ⟨ha, hc, hre⟩ := ih (!s) (c + 1) x
          simp [receiver_loop, hw, hr, hs, acquireCount, chipCloseCount,
            releaseCount, List.countP_cons, isAcquire, isChipClose, isRelease]
            at ha hc hre ⊢
          exact ⟨ha, hc, hre⟩

/-- C5: if the bounded sleep is interrupted after `t` of the currently
requested nanoseconds, the issuer's retry loop resumes waiting for exactly
the remaining duration and repeats this until a cumulative `T` has elapsed;
the interruptions never surface as an error, for any number of consecutive
interruptions. -/
theorem c5_interruption_recovery (T : Nat) (ts : List Nat)
    (h : validIntr T ts = true) :
    runSleep T (ts.map SleepRes.intr) = .ok T := by
  induction ts generalizing T with
  | nil => rfl
  | cons t ts ih =>
    simp only [validIntr, Bool.and_eq_true, decide_eq_true_eq] at h
    simp [runSleep, ih (T - t) h.2, Nat.add_sub_cancel' h.1.le]

theorem c5_witness :
    validIntr 1000000000 [300, 400000, 250000000] = true ∧
    runSleep 1000000000 ([300, 400000, 250000000].map SleepRes.intr) =
      .ok 1000000000 :=
  ⟨by decide,
   c5_interruption_recovery 1000000000 [300, 400000, 250000000] (by decide)⟩

/-- C2: the sequence of levels written by the toggle loop of either issuer
variant over `N` cycles is `L_0, ..., L_{N-1}` with `L_i = i % 2`
(`(cycle & 0x1) != 0` in the source), provided no set-value or sleep call
fails during those cycles. -/
theorem c2_alternation (b : Bool) (o : IssuerOracle) (lineId dur N : Nat)
    (h1 : ∀ c, c < N → o.setValueOk c = true)
    (h2 : ∀ c, c < N → sleepOk dur (o.sleepResp c) = true) :
    writtenValues (issuer_loop b o lineId dur 0 N).1 =
      (List.range N).map fun i => i % 2 := by
  have h := issuer_loop_happy b o lineId dur N 0
    (fun k hk => by simpa using h1 k hk)
    (fun k hk => by simpa using h2 k hk)
  rw [h]
  rw [List.range_eq_range']
  rw [writtenValues_setValue_map]
  exact List.map_congr_left fun i _ => Nat.and_one_is_mod i

theorem c2_witness :
    writtenValues (issuer_loop true happyIssuerO 16 1000000000 0 5).1 =
      (List.range 5).map (fun i => i % 2) ∧
    writtenValues (issuer_loop true happyIssuerO 16 1000000000 0 5).1 =
      [0, 1, 0, 1, 0] :=
  ⟨c2_alternation true happyIssuerO 16 1000000000 5
      (fun _ _ => rfl) (fun _ _ => rfl),
   by decide⟩

/-- C1 fails on `gpio2.c` as stated: in `issuer_thread`, when the first
`gpiod_line_set_value` of the loop fails (lines 120-122), `error()` is
called without any `gpiod_line_release`, so the successfully acquired line
handle (line 16) is leaked on that execution path — one acquisition, zero
releases — and `gpio2.c` registers no process-exit cleanup that could
release it either. -/
theorem c1_counterexample :
    acquireCount 16 (Gpio2.issuer_thread setFailIssuer2O "issuer" 1 5 16).1 = 1 ∧
    releaseCount 16 (Gpio2.issuer_thread setFailIssuer2O "issuer" 1 5 16).1 = 0 ∧
    (Gpio2.issuer_thread setFailIssuer2O "issuer" 1 5 16).2 =
      .exit1 "issuer: cannot change the value of the output" := by
  decide

/-- C1 amended: in the resource-tracked variant (`part_001`), for every
oracle and every line id, on every execution path of `issuer_thread` and on
every execution path of `receiver_thread` that does not run into the
null-handle defect (C10), the number of releases of a line equals the
number of its successful acquisitions — every acquired handle is released
exactly once, none is leaked or double-released. -/
theorem c1_amended (io : IssuerOracle) (n dur id : Nat)
    (ro : ReceiverOracle) (m rid cid : Nat) (s0 : Bool) (x : Nat)
    (h : (Gpio3.receiver_thread ro m rid cid s0).2 ≠ Outcome.nullDeref) :
    acquireCount id (Gpio3.issuer_thread io n dur id).1 =
      releaseCount id (Gpio3.issuer_thread io n dur id).1 ∧
    acquireCount x (Gpio3.receiver_thread ro m rid cid s0).1 =
      releaseCount x (Gpio3.receiver_thread ro m rid cid s0).1 := by
  constructor
  · rcases h1 : io.getLineOk with _ | _
    · simp [Gpio3.issuer_thread, h1, acquireCount, releaseCount,
        List.countP, List.countP.go, isAcquire, isRelease]
    · rcases h2 : io.requestOutputOk with _ | _
      · simp [Gpio3.issuer_thread, h1, h2, acquireCount, releaseCount,
          List.countP, List.countP.go, isAcquire, isRelease]
      · obtain ⟨ha, _, hr⟩ := issuer_loop_counts true io id dur n 0 id
        rcases hL : (issuer_loop true io id dur 0 n).2 with _ | m'
        · rw [hL] at hr
          simp only [acquireCount, releaseCount] at ha hr ⊢
          simp [Gpio3.issuer_thread, h1, h2, hL, List.countP_cons,
            List.countP_append, isAcquire, isRelease, ha, hr]
        · rw [hL] at hr
          simp only [acquireCount, releaseCount] at ha hr ⊢
          simp at hr
          simp [Gpio3.issuer_thread, h1, h2, hL, List.countP_cons,
            List.countP_append, isAcquire, isRelease, ha, hr]
  · rcases g1 : ro.getReceiverOk with _ | _
    · simp [Gpio3.receiver_thread, g1, acquireCount, releaseCount,
        List.countP, List.countP.go, isAcquire, isRelease]
    · rcases g2 : ro.getControllerOk with _ | _
      · rw [Gpio3.receiver_thread] at h
        simp [g1, g2] at h
      · rcases g3 : ro.requestOutputOk with _ | _
        · simp [Gpio3.receiver_thread, g1, g2, g3, acquireCount, releaseCount,
            List.countP, List.countP.go, isAcquire, isRelease, beq_iff_eq,
            Nat.add_comm]
        · rcases g4 : ro.requestEventsOk with _ | _
          · simp [Gpio3.receiver_thread, g1, g2, g3, g4, acquireCount,
              releaseCount, List.countP, List.countP.go, isAcquire, isRelease,
              beq_iff_eq, Nat.add_comm]
          · obtain ⟨ha, _, hr⟩ := receiver_loop_counts ro rid cid m s0 0 x
            rcases hL : (receiver_loop ro rid cid s0 0 m).2 with _ | m'
            · rw [hL] at hr
              simp only [acquireCount, releaseCount] at ha hr ⊢
              simp [Gpio3.receiver_thread, g1, g2, g3, g4, hL, List.countP_cons,
                List.countP_append, isAcquire, isRelease, ha, hr, beq_iff_eq,
                Nat.add_comm]
            · rw [hL] at hr
              simp only [acquireCount, releaseCount] at ha hr ⊢
              simp [Gpio3.receiver_thread, g1, g2, g3, g4, hL, List.countP_cons,
                List.countP_append, isAcquire, isRelease, ha, hr, beq_iff_eq,
                Nat.add_comm]

theorem c1_witness :
    acquireCount 16 (Gpio3.issuer_thread happyIssuerO 3 1000000000 16).1 =
      releaseCount 16 (Gpio3.issuer_thread happyIssuerO 3 1000000000 16).1 ∧
    acquireCount 17 (Gpio3.receiver_thread happyReceiverO 2 21 17 false).1 =
      releaseCount 17 (Gpio3.receiver_thread happyReceiverO 2 21 17 false).1 :=
  c1_amended happyIssuerO 3 1000000000 16 happyReceiverO 2 21 17 false 17
    (by decide)

/-- C3 is right about event consumption but wrong about the level sequence:
`receiver_thread` declares `int state;` and never initialises it, and the
first thing each cycle does to it is `state = !state`.  With the
indeterminate initial content of the stack slot nonzero (modelled as
`s0 = true`) a 2-cycle run consumes exactly 2 events but writes levels
`0, 1`; only when the leftover value happens to be zero does it write the
claimed `1, 0`.  The intended behaviour (spec §8, §9: initial level 0,
first flip to 1) is clear, so this is a defect of the code. -/
theorem c3_code_bug :
    eventReadCount (Gpio3.receiver_thread happyReceiverO 2 21 17 true).1 = 2 ∧
    writtenValues (Gpio3.receiver_thread happyReceiverO 2 21 17 true).1 = [0, 1] ∧
    eventReadCount (Gpio3.receiver_thread happyReceiverO 2 21 17 false).1 = 2 ∧
    writtenValues (Gpio3.receiver_thread happyReceiverO 2 21 17 false).1 = [1, 0] := by
  decide

/-- C4 fails as stated: `reset_gpio` calls `gpiod_chip_close(CHIP)`
unconditionally and never clears or guards `CHIP`, so invoking the cleanup
callback twice closes (releases) the chip handle twice. -/
theorem c4_counterexample :
    chipCloseCount ((Gpio3.reset_gpio happyResetO).1 ++
      (Gpio3.reset_gpio happyResetO).1) = 2 := by
  decide

theorem resetLine_chipCloseCount (o : Gpio3.ResetOracle) (p : Nat) :
    chipCloseCount (Gpio3.resetLine o p).1 = 0 := by
  rcases h1 : o.getLineOk p with _ | _ <;> rcases h2 : o.requestInputOk p with _ | _ <;>
    simp [Gpio3.resetLine, h1, h2, chipCloseCount, List.countP, List.countP.go,
      isChipClose]

/-- C4 amended: each single invocation of the cleanup callback closes the
chip handle exactly once; the callback has no reentry guard, so the program
is safe only because `atexit` registers it exactly once per process. -/
theorem c4_amended (o : Gpio3.ResetOracle) :
    chipCloseCount (Gpio3.reset_gpio o).1 = 1 := by
  have h16 := resetLine_chipCloseCount o 16
  have h17 := resetLine_chipCloseCount o 17
  have h21 := resetLine_chipCloseCount o 21
  simp only [chipCloseCount] at h16 h17 h21 ⊢
  simp [Gpio3.reset_gpio, Gpio3.resetPins, List.countP_append, h16, h17, h21,
    List.countP_cons, isChipClose]

/-- C6 fails as stated on the resource-tracked variant: its `issuer_thread`
(part_001 lines 162-165) ends the loop and immediately releases the line via
`issuer_thread_terminate` with no final forced `set_value(0)`.  With
`count = 3` the complete trace ends `... setValue 0, release` — the written
levels are `0, 1, 0` with no fourth forced `0` before the release. -/
theorem c6_counterexample :
    (Gpio3.issuer_thread happyIssuerO 3 1000000000 16).1 =
      [Ev.getLine 16 true, Ev.requestOutput (some 16) "issuer" 0 true,
       Ev.setValue (some 16) 0 true, Ev.setValue (some 16) 1 true,
       Ev.setValue (some 16) 0 true, Ev.release 16] ∧
    writtenValues (Gpio3.issuer_thread happyIssuerO 3 1000000000 16).1 =
      [0, 1, 0] ∧
    (Gpio3.issuer_thread happyIssuerO 3 1000000000 16).2 = Outcome.ok := by
  decide

/-- C6 amended: the Toggler of `gpio2.c` (and the LED variant) does force
the level to 0 after a normally completed loop and only then releases the
line (then re-acquires it as input and releases again as hardening): over
`n` cycles the written levels are `0, 1, 0, 1, ...` followed by one forced
`0`.  The resource-tracked variant's issuer instead releases directly,
leaving the reset-to-input to the process-exit hook. -/
theorem c6_amended (o : Issuer2Oracle) (name : String) (n dur id : Nat)
    (h1 : ∀ c, c < n → o.setValueOk c = true)
    (h2 : ∀ c, c < n → sleepOk dur (o.sleepResp c) = true)
    (h3 : o.finalSetOk = true) (h4 : o.getLineOk = true)
    (h5 : o.requestOutputOk = true) (h6 : o.getLineOk2 = true)
    (h7 : o.requestInputOk = true) :
    (Gpio2.issuer_thread o name n dur id).1 =
      Ev.getLine id true :: Ev.requestOutput (some id) name 0 true ::
        (((List.range' 0 n).map fun i => Ev.setValue (some id) (i &&& 1) true) ++
          [Ev.setValue (some id) 0 true, Ev.release id, Ev.getLine id true,
           Ev.requestInput (some id) name true, Ev.release id]) ∧
    writtenValues (Gpio2.issuer_thread o name n dur id).1 =
      ((List.range n).map fun i => i % 2) ++ [0] ∧
    (Gpio2.issuer_thread o name n dur id).2 = Outcome.ok := by
  have hL := issuer_loop_happy false o.toIssuerOracle id dur n 0
    (fun k hk => by simpa using h1 k hk)
    (fun k hk => by simpa using h2 k hk)
  have hL1 : (issuer_loop false o.toIssuerOracle id dur 0 n).1 =
      (List.range' 0 n).map fun i => Ev.setValue (some id) (i &&& 1) true := by
    rw [hL]
  have hL2 : (issuer_loop false o.toIssuerOracle id dur 0 n).2 = none := by
    rw [hL]
  have htr : (Gpio2.issuer_thread o name n dur id).1 =
      Ev.getLine id true :: Ev.requestOutput (some id) name 0 true ::
        (((List.range' 0 n).map fun i => Ev.setValue (some id) (i &&& 1) true) ++
          [Ev.setValue (some id) 0 true, Ev.release id, Ev.getLine id true,
           Ev.requestInput (some id) name true, Ev.release id]) := by
    simp [Gpio2.issuer_thread, h3, h4, h5, h6, h7, hL1, hL2]
  refine ⟨htr, ?_, ?_⟩
  · rw [htr]
    simp only [writtenValues, List.filterMap_cons, valueOf, List.filterMap_append]
    rw [show (List.filterMap valueOf
        ((List.range' 0 n).map fun i => Ev.setValue (some id) (i &&& 1) true)) =
        writtenValues ((List.range' 0 n).map fun i =>
          Ev.setValue (some id) (i &&& 1) true) from rfl]
    rw [writtenValues_setValue_map]
    rw [List.range_eq_range']
    simp [List.map_congr_left fun (i : Nat) _ => Nat.and_one_is_mod i, valueOf]
  · simp [Gpio2.issuer_thread, h3, h4, h5, h6, h7, hL2]

theorem c6_witness :
    (Gpio2.issuer_thread happyIssuer2O "issuer" 3 1000000000 16).1 =
      Ev.getLine 16 true :: Ev.requestOutput (some 16) "issuer" 0 true ::
        (((List.range' 0 3).map fun i => Ev.setValue (some 16) (i &&& 1) true) ++
          [Ev.setValue (some 16) 0 true, Ev.release 16, Ev.getLine 16 true,
           Ev.requestInput (some 16) "issuer" true, Ev.release 16]) ∧
    writtenValues (Gpio2.issuer_thread happyIssuer2O "issuer" 3 1000000000 16).1 =
      ((List.range 3).map fun i => i % 2) ++ [0] ∧
    (Gpio2.issuer_thread happyIssuer2O "issuer" 3 1000000000 16).2 = Outcome.ok :=
  c6_amended happyIssuer2O "issuer" 3 1000000000 16
    (fun _ _ => rfl) (fun _ _ => rfl) rfl rfl rfl rfl rfl

/-- C7: when acquisition of the Relay's watched (edge-event) input line
fails (`gpiod_line_request_both_edges_events` returns -1), both variants
release each line exactly once and call
`error("receiver: cannot set the line's callbacks")` — a diagnostic naming
the failed operation — which makes the process print
`ERROR: receiver: cannot set the line's callbacks` and exit with status 1;
the controller (output) line release is performed exactly once on that
path. -/
theorem c7_fatal_path (ro : ReceiverOracle) (m rid cid : Nat) (s0 : Bool)
    (io : Issuer2Oracle) (ro2 : Receiver2Oracle) (s1 : Bool)
    (hne : rid ≠ cid)
    (h1 : ro.getReceiverOk = true) (h2 : ro.getControllerOk = true)
    (h3 : ro.requestOutputOk = true) (h4 : ro.requestEventsOk = false)
    (hio : (Gpio2.issuer_thread io "issuer" 20 1000000000 16).2 = Outcome.ok)
    (g1 : ro2.getReceiverOk = true) (g2 : ro2.getControllerOk = true)
    (g3 : ro2.requestOutputOk = true) (g4 : ro2.requestEventsOk = false) :
    (Gpio3.receiver_thread ro m rid cid s0).2 =
      .exit1 "receiver: cannot set the line's callbacks" ∧
    releaseCount cid (Gpio3.receiver_thread ro m rid cid s0).1 = 1 ∧
    Gpio2.main_run true io ro2 s1 =
      (some 1, [errorLine "receiver: cannot set the line's callbacks"]) ∧
    releaseCount 17 (Gpio2.receiver_thread ro2 10 21 17 s1).1 = 1 := by
  have hr2 : (Gpio2.receiver_thread ro2 10 21 17 s1).2 =
      .exit1 "receiver: cannot set the line's callbacks" := by
    simp [Gpio2.receiver_thread, g1, g2, g3, g4]
  refine ⟨?_, ?_, ?_, ?_⟩
  · simp [Gpio3.receiver_thread, h1, h2, h3, h4]
  · have hbe : (rid == cid) = false := by simp [beq_iff_eq, hne]
    simp [Gpio3.receiver_thread, h1, h2, h3, h4, releaseCount, List.countP,
      List.countP.go, isRelease, hbe]
  · simp [Gpio2.main_run, hio, hr2]
  · simp [Gpio2.receiver_thread, g1, g2, g3, g4, releaseCount, List.countP,
      List.countP.go, isRelease]

theorem c7_witness :
    (Gpio3.receiver_thread evFailReceiverO 3 21 17 false).2 =
      .exit1 "receiver: cannot set the line's callbacks" ∧
    releaseCount 17 (Gpio3.receiver_thread evFailReceiverO 3 21 17 false).1 = 1 ∧
    Gpio2.main_run true happyIssuer2O evFailReceiver2O false =
      (some 1, [errorLine "receiver: cannot set the line's callbacks"]) ∧
    releaseCount 17 (Gpio2.receiver_thread evFailReceiver2O 10 21 17 false).1 = 1 :=
  c7_fatal_path evFailReceiverO 3 21 17 false happyIssuer2O evFailReceiver2O false
    (by decide) rfl rfl rfl rfl (by decide) rfl rfl rfl rfl

/-- C10: in both receiver variants, the null check placed after
`gpiod_chip_get_line` for the controller line tests `receiver` instead of
`controller`, so whenever getting the controller line fails the failure goes
undetected and the thread calls `gpiod_line_request_output` on a `NULL`
line handle (crashing by dereference instead of reporting an error). -/
theorem c10_null_check_defect (ro : ReceiverOracle) (m rid cid : Nat) (s0 : Bool)
    (ro2 : Receiver2Oracle) (m2 rid2 cid2 : Nat) (s1 : Bool)
    (h1 : ro.getReceiverOk = true) (h2 : ro.getControllerOk = false)
    (g1 : ro2.getReceiverOk = true) (g2 : ro2.getControllerOk = false) :
    (Gpio3.receiver_thread ro m rid cid s0).2 = Outcome.nullDeref ∧
    Ev.requestOutput none "controller" 0 false ∈
      (Gpio3.receiver_thread ro m rid cid s0).1 ∧
    (Gpio2.receiver_thread ro2 m2 rid2 cid2 s1).2 = Outcome.nullDeref ∧
    Ev.requestOutput none "controller" 0 false ∈
      (Gpio2.receiver_thread ro2 m2 rid2 cid2 s1).1 := by
  refine ⟨?_, ?_, ?_, ?_⟩ <;>
    simp [Gpio3.receiver_thread, Gpio2.receiver_thread, h1, h2, g1, g2]

theorem c10_witness :
    (Gpio3.receiver_thread ctrlFailReceiverO 2 21 17 false).2 =
      Outcome.nullDeref ∧
    Ev.requestOutput none "controller" 0 false ∈
      (Gpio3.receiver_thread ctrlFailReceiverO 2 21 17 false).1 ∧
    (Gpio2.receiver_thread ctrlFailReceiver2O 10 21 17 false).2 =
      Outcome.nullDeref ∧
    Ev.requestOutput none "controller" 0 false ∈
      (Gpio2.receiver_thread ctrlFailReceiver2O 10 21 17 false).1 :=
  c10_null_check_defect ctrlFailReceiverO 2 21 17 false
    ctrlFailReceiver2O 10 21 17 false rfl rfl rfl rfl

/-- C9: the process of `gpio2.c` exits with status 0 exactly when the chip
opens and both tasks complete normally, and it exits with status 1 exactly
when a fatal error was reported, in which case the error stream holds the
single diagnostic `ERROR: <message>` produced by `error()`. -/
theorem c9_exit_codes (chipOk : Bool) (io : Issuer2Oracle)
    (ro : Receiver2Oracle) (s0 : Bool) :
    ((Gpio2.main_run chipOk io ro s0).1 = some 0 ↔
      chipOk = true ∧
      (Gpio2.issuer_thread io "issuer" 20 1000000000 16).2 = Outcome.ok ∧
      (Gpio2.receiver_thread ro 10 21 17 s0).2 = Outcome.ok) ∧
    ((Gpio2.main_run chipOk io ro s0).1 = some 1 ↔
      ∃ m, (Gpio2.main_run chipOk io ro s0).2 = [errorLine m]) := by
  rcases hc : chipOk with _ | _
  · constructor
    · simp [Gpio2.main_run, hc]
    · constructor
      · intro _
        exact ⟨"cannot open the chip", by simp [Gpio2.main_run, hc]⟩
      · intro _
        simp [Gpio2.main_run, hc]
  · rcases hi : (Gpio2.issuer_thread io "issuer" 20 1000000000 16).2 with _ | m | _
    · rcases hr : (Gpio2.receiver_thread ro 10 21 17 s0).2 with _ | m | _
      · simp [Gpio2.main_run, hc, hi, hr, errorLine]
      · constructor
        · simp [Gpio2.main_run, hc, hi, hr]
        · constructor
          · intro _
            exact ⟨m, by simp [Gpio2.main_run, hc, hi, hr]⟩
          · intro _
            simp [Gpio2.main_run, hc, hi, hr]
      · simp [Gpio2.main_run, hc, hi, hr]
    · constructor
      · simp [Gpio2.main_run, hc, hi]
      · constructor
        · intro _
          exact ⟨m, by simp [Gpio2.main_run, hc, hi]⟩
        · intro _
          simp [Gpio2.main_run, hc, hi]
    · simp [Gpio2.main_run, hc, hi]

theorem c9_witness :
    (Gpio2.main_run true happyIssuer2O happyReceiver2O false).1 = some 0 :=
  ((c9_exit_codes true happyIssuer2O happyReceiver2O false).1).mpr
    ⟨rfl, by decide, by decide⟩

theorem resetLine_getLines (o : Gpio3.ResetOracle) (p : Nat) :
    (Gpio3.resetLine o p).1.filterMap getLineId = [p] := by
  rcases h1 : o.getLineOk p with _ | _ <;> rcases h2 : o.requestInputOk p with _ | _ <;>
    simp [Gpio3.resetLine, h1, h2, getLineId]

theorem gpio3_issuer_chipClose_free (io : IssuerOracle) (n dur id : Nat) :
    chipCloseCount (Gpio3.issuer_thread io n dur id).1 = 0 := by
  rcases h1 : io.getLineOk with _ | _
  · simp [Gpio3.issuer_thread, h1, chipCloseCount, List.countP, List.countP.go,
      isChipClose]
  · rcases h2 : io.requestOutputOk with _ | _
    · simp [Gpio3.issuer_thread, h1, h2, chipCloseCount, List.countP,
        List.countP.go, isChipClose]
    · obtain ⟨_, hc, _⟩ := issuer_loop_counts true io id dur n 0 0
      rcases hL : (issuer_loop true io id dur 0 n).2 with _ | m <;>
      · simp only [chipCloseCount] at hc ⊢
        simp [Gpio3.issuer_thread, h1, h2, hL, List.countP_cons,
          List.countP_append, isChipClose, hc]

theorem gpio3_receiver_chipClose_free (ro : ReceiverOracle) (m rid cid : Nat)
    (s0 : Bool) :
    chipCloseCount (Gpio3.receiver_thread ro m rid cid s0).1 = 0 := by
  rcases g1 : ro.getReceiverOk with _ | _
  · simp [Gpio3.receiver_thread, g1, chipCloseCount, List.countP, List.countP.go,
      isChipClose]
  · rcases g2 : ro.getControllerOk with _ | _
    · simp [Gpio3.receiver_thread, g1, g2, chipCloseCount, List.countP,
        List.countP.go, isChipClose]
    · rcases g3 : ro.requestOutputOk with _ | _
      · simp [Gpio3.receiver_thread, g1, g2, g3, chipCloseCount, List.countP,
          List.countP.go, isChipClose]
      · rcases g4 : ro.requestEventsOk with _ | _
        · simp [Gpio3.receiver_thread, g1, g2, g3, g4, chipCloseCount,
            List.countP, List.countP.go, isChipClose]
        · obtain ⟨_, hc, _⟩ := receiver_loop_counts ro rid cid m s0 0 0
          rcases hL : (receiver_loop ro rid cid s0 0 m).2 with _ | m' <;>
          · simp only [chipCloseCount] at hc ⊢
            simp [Gpio3.receiver_thread, g1, g2, g3, g4, hL, List.countP_cons,
              List.countP_append, isChipClose, hc]

/-- C8: the cleanup callback `reset_gpio`, for the fixed statically known
line ids 16, 17, 21, attempts to get each line and request it as input and
then release it; a failure at either step logs a warning naming the line
and the failing call and moves on to the remaining lines (every one of the
three line ids is attempted no matter what fails); afterwards it closes the
chip handle — exactly once, as the last action.  Within this program it is
indeed the only closer of the chip handle: the issuer's and receiver's
traces never contain a chip close, and `main` itself contains no
`gpiod_chip_close` call (it only registers `reset_gpio` via `atexit`). -/
theorem c8_cleanup (o : Gpio3.ResetOracle) (pin : Nat)
    (io : IssuerOracle) (n dur id : Nat)
    (ro : ReceiverOracle) (m rid cid : Nat) (s0 : Bool) :
    (Gpio3.reset_gpio o).1.filterMap getLineId = [16, 17, 21] ∧
    chipCloseCount (Gpio3.reset_gpio o).1 = 1 ∧
    (Gpio3.reset_gpio o).1.getLast? = some Ev.chipClose ∧
    (pin ∈ Gpio3.resetPins → o.getLineOk pin = true →
      o.requestInputOk pin = true →
      Ev.requestInput (some pin) "line" true ∈ (Gpio3.reset_gpio o).1 ∧
      Ev.release pin ∈ (Gpio3.reset_gpio o).1) ∧
    (pin ∈ Gpio3.resetPins → o.getLineOk pin = false →
      (pin, "gpiod_chip_get_line") ∈ (Gpio3.reset_gpio o).2) ∧
    (pin ∈ Gpio3.resetPins → o.getLineOk pin = true →
      o.requestInputOk pin = false →
      (pin, "gpiod_line_request_input") ∈ (Gpio3.reset_gpio o).2) ∧
    chipCloseCount (Gpio3.issuer_thread io n dur id).1 = 0 ∧
    chipCloseCount (Gpio3.receiver_thread ro m rid cid s0).1 = 0 := by
  refine ⟨?_, ?_, ?_, ?_, ?_, ?_,
    gpio3_issuer_chipClose_free io n dur id,
    gpio3_receiver_chipClose_free ro m rid cid s0⟩
  · simp [Gpio3.reset_gpio, Gpio3.resetPins, List.filterMap_append,
      resetLine_getLines, getLineId]
  · have h16 := resetLine_chipCloseCount o 16
    have h17 := resetLine_chipCloseCount o 17
    have h21 := resetLine_chipCloseCount o 21
    simp only [chipCloseCount] at h16 h17 h21 ⊢
    simp [Gpio3.reset_gpio, Gpio3.resetPins, List.countP_append, h16, h17, h21,
      List.countP_cons, isChipClose]
  · simp [Gpio3.reset_gpio]
  · intro hpin hg hr
    have : pin = 16 ∨ pin = 17 ∨ pin = 21 := by
      simpa [Gpio3.resetPins] using hpin
    rcases this with rfl | rfl | rfl <;>
      constructor <;>
      · simp [Gpio3.reset_gpio, Gpio3.resetPins, Gpio3.resetLine, hg, hr]
  · intro hpin hg
    have : pin = 16 ∨ pin = 17 ∨ pin = 21 := by
      simpa [Gpio3.resetPins] using hpin
    rcases this with rfl | rfl | rfl <;>
      simp [Gpio3.reset_gpio, Gpio3.resetPins, Gpio3.resetLine, hg]
  · intro hpin hg hr
    have : pin = 16 ∨ pin = 17 ∨ pin = 21 := by
      simpa [Gpio3.resetPins] using hpin
    rcases this with rfl | rfl | rfl <;>
      simp [Gpio3.reset_gpio, Gpio3.resetPins, Gpio3.resetLine, hg, hr]

theorem c8_witness :
    (Gpio3.reset_gpio pin17FailResetO).1.filterMap getLineId = [16, 17, 21] ∧
    chipCloseCount (Gpio3.reset_gpio pin17FailResetO).1 = 1 ∧
    (17, "gpiod_line_request_input") ∈ (Gpio3.reset_gpio pin17FailResetO).2 :=
  ⟨(c8_cleanup pin17FailResetO 17 happyIssuerO 1 1 16
      happyReceiverO 1 21 17 false).1,
   (c8_cleanup pin17FailResetO 17 happyIssuerO 1 1 16
      happyReceiverO 1 21 17 false).2.1,
   (c8_cleanup pin17FailResetO 17 happyIssuerO 1 1 16
      happyReceiverO 1 21 17 false).2.2.2.2.2.1 (by decide) rfl (by decide)⟩
